import Mathlib

/-!
Shallow embedding of the proxy-dispatch / envelope-normalization layer of the
solana-agent-kit-py repository, and theorems settling the frozen claims about it.

Python values that cross the JSON boundary are modelled by `JVal`; Python
exceptions (all subclasses of `Exception` that the code can raise or catch) by
`PyExc`; a fallible Python computation by `Except PyExc α`.  Remote HTTP
interactions are modelled by an explicit outcome parameter (`HttpOutcome`):
the manager functions are deterministic functions of their arguments and of the
outcomes of the network calls they perform.  External libraries that are not
part of the repository (requests, base64, the AES primitive, solders) are
modelled from their documented behaviour where the claims depend on them, and
passed as parameters where they are opaque to every claim.
-/

/-- A JSON value, as produced by `response.json()` in the source. -/
inductive JVal where
  | null
  | bool (b : Bool)
  | str (s : String)
  | num (n : Int)
  | arr (xs : List JVal)
  | obj (fields : List (String × JVal))

/-- Python truthiness (`bool(v)`) of a JSON-decoded value: `None`, `False`,
`""`, `0`, `[]` and `{}` are falsy, everything else truthy. -/
def JVal.truthy : JVal → Bool
  | .null => false
  | .bool b => b
  | .str s => !s.isEmpty
  | .num n => n != 0
  | .arr xs => !xs.isEmpty
  | .obj fs => !fs.isEmpty

/-- A Python dict with string keys, as built by the managers. -/
abbrev PyDict := List (String × JVal)

/-- `d.get(k)` on a Python dict: `some v` when the key is present, else `none`. -/
def dictGet (d : PyDict) (k : String) : Option JVal :=
  (d.find? (fun p => p.fst == k)).map Prod.snd

/-- The exception classes raised or caught anywhere in the embedded code.
`keyIssuanceError` is modelled from the spec (§4.1 names a `KeyIssuanceError`);
no class of that name exists anywhere in the repository and no code path
constructs it — it is present only so that its absence from the code's
behaviour can be stated. -/
inductive PyExc where
  | valueError (msg : String)
  | typeError (msg : String)
  | keyError (key : String)
  | attributeError (msg : String)
  | httpError (msg : String)
  | connectionError (msg : String)
  | timeoutError (msg : String)
  | invalidHeader (msg : String)
  | invalidURL (msg : String)
  | requestException (msg : String)
  | binasciiError (msg : String)
  | nameError (msg : String)
  | exception (msg : String)
  | solanaAgentKitError (msg : String)
  | keyIssuanceError (msg : String)

/-- `isinstance(e, requests.exceptions.RequestException)`: the requests
exception hierarchy (HTTPError, ConnectionError, Timeout, InvalidHeader,
InvalidURL are all RequestException subclasses). -/
def PyExc.isRequestException : PyExc → Bool
  | .httpError _ | .connectionError _ | .timeoutError _
  | .invalidHeader _ | .invalidURL _ | .requestException _ => true
  | _ => false

/-- Whether the exception is the spec's `KeyIssuanceError`. -/
def PyExc.isKeyIssuanceError : PyExc → Bool
  | .keyIssuanceError _ => true
  | _ => false

/-- `str(e)` for the exceptions above.  For every class constructed with a
single message argument this is the message; `str(KeyError(k))` is the repr of
the key, i.e. the key in quotes. -/
def PyExc.str : PyExc → String
  | .valueError m => m
  | .typeError m => m
  | .keyError k => "'" ++ k ++ "'"
  | .attributeError m => m
  | .httpError m => m
  | .connectionError m => m
  | .timeoutError m => m
  | .invalidHeader m => m
  | .invalidURL m => m
  | .requestException m => m
  | .binasciiError m => m
  | .nameError m => m
  | .exception m => m
  | .solanaAgentKitError m => m
  | .keyIssuanceError m => m

/-- Outcome of one `requests.post` call: either the transport layer raised, or
a response with a status code and an (already JSON-decoded) body arrived. -/
inductive HttpOutcome where
  | transportError (e : PyExc)
  | response (status : Nat) (body : JVal)

/-- `requests.post(...)`: raises the transport exception or yields the
response. -/
def requestsPost (o : HttpOutcome) : Except PyExc (Nat × JVal) :=
  match o with
  | .transportError e => .error e
  | .response st body => .ok (st, body)

/-- `response.raise_for_status()`, modelled from the requests library: raises
`HTTPError` exactly for status codes in `[400, 600)` (the reason phrase of the
real message is omitted). -/
def raiseForStatus (status : Nat) (url : String) : Except PyExc Unit :=
  if 400 ≤ status ∧ status < 500 then
    .error (.httpError (toString status ++ " Client Error for url: " ++ url))
  else if 500 ≤ status ∧ status < 600 then
    .error (.httpError (toString status ++ " Server Error for url: " ++ url))
  else
    .ok ()

/-- `data[k]` on a JSON-decoded value: `KeyError` when the key is absent,
`TypeError` when the value is not a dict. -/
def jsonIndex (v : JVal) (k : String) : Except PyExc JVal :=
  match v with
  | .obj fs =>
    match dictGet fs k with
    | some x => .ok x
    | none => .error (.keyError k)
  | _ => .error (.typeError "object is not subscriptable")

/-- `data.get(k)` on a JSON-decoded value: `AttributeError` when the value is
not a dict. -/
def jsonGet (v : JVal) (k : String) : Except PyExc (Option JVal) :=
  match v with
  | .obj fs => .ok (dictGet fs k)
  | _ => .error (.attributeError "object has no attribute get")

/-! ### base64 and UTF-8, modelled from the Python standard library -/

/-- Index of a character in the standard base64 alphabet. -/
def b64Val (c : Char) : Option Nat :=
  if 'A' ≤ c ∧ c ≤ 'Z' then some (c.toNat - 'A'.toNat)
  else if 'a' ≤ c ∧ c ≤ 'z' then some (c.toNat - 'a'.toNat + 26)
  else if '0' ≤ c ∧ c ≤ '9' then some (c.toNat - '0'.toNat + 52)
  else if c = '+' then some 62
  else if c = '/' then some 63
  else none

/-- Character at an index of the standard base64 alphabet. -/
def b64Char (n : Nat) : Char :=
  ("ABCDEFGHIJKLMNOPQRSTUVWXYZabcdefghijklmnopqrstuvwxyz0123456789+/".data).getD n 'A'

/-- `base64.b64encode` over a byte list. -/
def b64encodeBytes : List Nat → List Char
  | a :: b :: c :: rest =>
    b64Char (a / 4) :: b64Char (a % 4 * 16 + b / 16) ::
      b64Char (b % 16 * 4 + c / 64) :: b64Char (c % 64) :: b64encodeBytes rest
  | [a, b] => [b64Char (a / 4), b64Char (a % 4 * 16 + b / 16), b64Char (b % 16 * 4), '=']
  | [a] => [b64Char (a / 4), b64Char (a % 4 * 16), '=', '=']
  | [] => []

/-- `base64.b64decode` of a correctly padded base64 string, raising
`binascii.Error` otherwise (the lax discarding of non-alphabet characters of
the real library is not modelled; no claim depends on it). -/
def b64decodeChars : List Char → Except PyExc (List Nat)
  | [] => .ok []
  | c1 :: c2 :: c3 :: c4 :: rest =>
    match b64Val c1, b64Val c2 with
    | some v1, some v2 =>
      if c3 = '=' ∧ c4 = '=' ∧ rest = [] then
        .ok [v1 * 4 + v2 / 16]
      else if c4 = '=' ∧ rest = [] then
        match b64Val c3 with
        | some v3 => .ok [v1 * 4 + v2 / 16, v2 % 16 * 16 + v3 / 4]
        | none => .error (.binasciiError "Invalid base64-encoded string")
      else
        match b64Val c3, b64Val c4 with
        | some v3, some v4 =>
          match b64decodeChars rest with
          | .ok tail => .ok ([v1 * 4 + v2 / 16, v2 % 16 * 16 + v3 / 4, v3 % 4 * 64 + v4] ++ tail)
          | .error e => .error e
        | _, _ => .error (.binasciiError "Invalid base64-encoded string")
    | _, _ => .error (.binasciiError "Invalid base64-encoded string")
  | _ => .error (.binasciiError "Invalid base64-encoded string")

/-- `base64.b64decode(v)` applied to a JSON value: only strings are
decodable; anything else raises `TypeError` (as the library does for
non-bytes-like arguments). -/
def b64decodeJ (v : JVal) : Except PyExc (List Nat) :=
  match v with
  | .str s => b64decodeChars s.data
  | _ => .error (.typeError "argument should be a bytes-like object or ASCII string")

/-- A Python string as its list of Unicode code points (`chr`/`ord` view);
`len` is the list length, indexing is positional. -/
abbrev PyStr := List Nat

/-- The code points of a Lean string literal, for concrete Python strings. -/
def pyStrOf (s : String) : PyStr := s.data.map Char.toNat

/-- UTF-8 encoding of one Unicode code point (`str.encode()` per character). -/
def utf8EncodeCp (n : Nat) : List Nat :=
  if n < 0x80 then [n]
  else if n < 0x800 then [0xC0 + n / 0x40, 0x80 + n % 0x40]
  else if n < 0x10000 then [0xE0 + n / 0x1000, 0x80 + n / 0x40 % 0x40, 0x80 + n % 0x40]
  else [0xF0 + n / 0x40000, 0x80 + n / 0x1000 % 0x40, 0x80 + n / 0x40 % 0x40, 0x80 + n % 0x40]

/-- `s.encode()`: UTF-8 bytes of a string (given as its code points). -/
def utf8Encode (s : PyStr) : List Nat :=
  (s.map utf8EncodeCp).flatten

/-! ### The encryption handshake
(`solana_agent_kit/utils/agentipy_proxy/utils.py`) -/

/-- `get_encryption_key()` (utils.py lines 11–14): POST to the key-issuance
endpoint (note: the source calls no `raise_for_status`), decode the JSON body,
and return `data["requestId"], b64decode(data["encryptionKey"]),
b64decode(data["iv"])` — evaluated left to right, raising `KeyError` on the
first missing field. -/
def get_encryption_key (o : HttpOutcome) : Except PyExc (JVal × List Nat × List Nat) :=
  match requestsPost o with
  | .error e => .error e
  | .ok (_status, data) =>
    match jsonIndex data "requestId" with
    | .error e => .error e
    | .ok requestId =>
      match jsonIndex data "encryptionKey" with
      | .error e => .error e
      | .ok encryptionKeyRaw =>
        match b64decodeJ encryptionKeyRaw with
        | .error e => .error e
        | .ok encryptionKey =>
          match jsonIndex data "iv" with
          | .error e => .error e
          | .ok ivRaw =>
            match b64decodeJ ivRaw with
            | .error e => .error e
            | .ok iv => .ok (requestId, encryptionKey, iv)

/-- `padding_length = 16 - (len(private_key) % 16)` (utils.py line 23). -/
def paddingLength (private_key : PyStr) : Nat :=
  16 - private_key.length % 16

/-- `padded_private_key = private_key + (chr(padding_length) * padding_length)`
(utils.py line 24). -/
def padPrivateKey (private_key : PyStr) : PyStr :=
  private_key ++ List.replicate (paddingLength private_key) (paddingLength private_key)

/-- The `{requestId, encryptedPrivateKey}` dict returned by
`encrypt_private_key` (utils.py lines 28–31), with its two keys as fields. -/
structure EncryptedKeyEnv where
  requestId : JVal
  encryptedPrivateKey : String

/-- `encrypt_private_key(private_key)` (utils.py lines 16–31).  The AES-CBC
primitive of the `cryptography` library is passed as the parameter `aes`
(key → iv → plaintext bytes → ciphertext bytes); its argument checks are
modelled: `AES(key)` rejects keys that are not 128/192/256 bits, `CBC(iv)`
rejects IVs that are not 16 bytes, and `finalize` rejects plaintexts that are
not a multiple of the 16-byte block. -/
def encrypt_private_key (aes : List Nat → List Nat → List Nat → List Nat)
    (private_key : PyStr) (keyIssuance : HttpOutcome) :
    Except PyExc EncryptedKeyEnv :=
  match get_encryption_key keyIssuance with
  | .error e => .error e
  | .ok (requestId, encryptionKey, iv) =>
    if ¬(encryptionKey.length = 16 ∨ encryptionKey.length = 24 ∨ encryptionKey.length = 32) then
      .error (.valueError "Invalid key size for this algorithm.")
    else if iv.length ≠ 16 then
      .error (.valueError "Invalid IV size for this mode.")
    else
      let paddedBytes := utf8Encode (padPrivateKey private_key)
      if paddedBytes.length % 16 ≠ 0 then
        .error (.valueError "The length of the provided data is not a multiple of the block length.")
      else
        let encrypted := aes encryptionKey iv paddedBytes
        .ok ⟨requestId, String.mk (b64encodeBytes encrypted)⟩

/-! ### The proxy-backed managers
(`agentipy/tools/use_3land.py`, `agentipy/tools/use_flash.py`) -/

/-- The fields of the agent context that the proxy-backed managers read. -/
structure AgentCtx where
  private_key : PyStr
  rpc_url : String
  openai_api_key : String
  base_proxy_url : String
  api_version : String

/-- A network call performed by a manager: the handshake's key-issuance POST,
or the proxy POST to the given URL. -/
inductive NetEffect where
  | keyIssuancePost
  | proxyPost (url : String)

/-- The `{"success": False, "error": msg}` dict. -/
def envelopeErr (msg : String) : PyDict :=
  [("success", .bool false), ("error", .str msg)]

/-- The `{"success": False, "error": v}` dict with an arbitrary error value. -/
def envelopeErrV (v : JVal) : PyDict :=
  [("success", .bool false), ("error", v)]

/-- The `{"success": True, "transaction": t, "message": m}` dict. -/
def envelopeOk (t m : JVal) : PyDict :=
  [("success", .bool true), ("transaction", t), ("message", m)]

/-- The three `except` clauses shared by every proxy-backed manager method
(use_3land.py lines 70–78, use_flash.py lines 64–72), applied to the outcome
of the `try` block: `RequestException` → `{"success": False, "error":
str(http_error)}`; `ValueError` → same shape with the validation message; any
other `Exception` → same shape with `str(error)`. -/
def catchLadder (r : Except PyExc PyDict) : PyDict :=
  match r with
  | .ok d => d
  | .error e =>
    if e.isRequestException then envelopeErr e.str
    else
      match e with
      | .valueError msg => envelopeErr msg
      | _ => envelopeErr e.str

/-- The shared tail of the proxy-backed managers (use_3land.py lines 53–68,
use_flash.py lines 47–62): POST the payload, `raise_for_status`, decode, and
normalize `data.get("success")` into the success or error envelope. -/
def proxyPostAndNormalize (url : String) (proxy : HttpOutcome) :
    Except PyExc PyDict :=
  match proxy with
  | .transportError e => .error e
  | .response status data =>
    match raiseForStatus status url with
    | .error e => .error e
    | .ok _ =>
      match jsonGet data "success" with
      | .error e => .error e
      | .ok success =>
        if (success.getD .null).truthy then
          match jsonGet data "value", jsonGet data "message" with
          | .ok value, .ok message => .ok (envelopeOk (value.getD .null) (message.getD .null))
          | .error e, _ => .error e
          | _, .error e => .error e
        else
          match jsonGet data "error" with
          | .error e => .error e
          | .ok err => .ok (envelopeErrV (err.getD (.str "Unknown error")))

/-- An optional string argument as a JSON payload value (`None` → null). -/
def optStr : Option String → JVal
  | some s => .str s
  | none => .null

namespace ThreeLandManager

/-- `ThreeLandManager.create_3land_collection` (use_3land.py lines 12–78),
as a function of the agent context, the call arguments, the AES primitive and
the outcomes of the two network calls; returns the resulting dict together
with the list of network calls performed.  The body mirrors the source:
validate (`ValueError` if any of symbol/name/description is falsy), run the
encryption handshake, build the payload, POST, normalize; the surrounding
`try/except` is `catchLadder`. -/
def create_3land_collection (aes : List Nat → List Nat → List Nat → List Nat)
    (agent : AgentCtx) (collection_symbol collection_name collection_description : String)
    (main_image_url cover_image_url : Option String) (is_devnet : Bool)
    (keyIssuance proxy : HttpOutcome) : PyDict × List NetEffect :=
  if ¬(!collection_symbol.isEmpty && !collection_name.isEmpty
        && !collection_description.isEmpty) then
    (catchLadder (.error (.valueError "Collection symbol, name, and description are required.")), [])
  else
    match encrypt_private_key aes agent.private_key keyIssuance with
    | .error e => (catchLadder (.error e), [.keyIssuancePost])
    | .ok env =>
      let url := agent.base_proxy_url ++ "/" ++ agent.api_version ++ "/nft/3land-create-collection"
      let _payload : PyDict := [
        ("requestId", env.requestId),
        ("encrypted_private_key", .str env.encryptedPrivateKey),
        ("rpc_url", .str agent.rpc_url),
        ("open_api_key", .str agent.openai_api_key),
        ("collectionSymbol", .str collection_symbol),
        ("collectionName", .str collection_name),
        ("collectionDescription", .str collection_description),
        ("mainImageUrl", optStr main_image_url),
        ("coverImageUrl", optStr cover_image_url),
        ("isDevnet", .bool is_devnet)]
      (catchLadder (proxyPostAndNormalize url proxy), [.keyIssuancePost, .proxyPost url])

end ThreeLandManager

namespace FlashTradeManager

/-- `FlashTradeManager.flash_open_trade` (use_flash.py lines 12–72).
`collateral_usd` and `leverage` are Python floats; they are carried as opaque
JSON numbers whose only inspected property is truthiness (`0.0` is falsy). -/
def flash_open_trade (aes : List Nat → List Nat → List Nat → List Nat)
    (agent : AgentCtx) (token side : String) (collateral_usd leverage : JVal)
    (keyIssuance proxy : HttpOutcome) : PyDict × List NetEffect :=
  if ¬(!token.isEmpty && !side.isEmpty && collateral_usd.truthy && leverage.truthy) then
    (catchLadder (.error (.valueError "Token, side, collateral_usd, and leverage are required.")), [])
  else
    match encrypt_private_key aes agent.private_key keyIssuance with
    | .error e => (catchLadder (.error e), [.keyIssuancePost])
    | .ok env =>
      let url := agent.base_proxy_url ++ "/" ++ agent.api_version ++ "/flash/flash-open-trade"
      let _payload : PyDict := [
        ("requestId", env.requestId),
        ("encrypted_private_key", .str env.encryptedPrivateKey),
        ("rpc_url", .str agent.rpc_url),
        ("open_api_key", .str agent.openai_api_key),
        ("token", .str token),
        ("side", .str side),
        ("collateralUsd", collateral_usd),
        ("leverage", leverage)]
      (catchLadder (proxyPostAndNormalize url proxy), [.keyIssuancePost, .proxyPost url])

end FlashTradeManager

namespace AllDomainsManager

/-- `AllDomainsManager.resolve_all_domains` (use_alldomains.py lines 13–56):
proxy-backed like the managers above (same handshake, POST to
`{base_proxy_url}/{api_version}/domains/resolve-all-domains`), yet it does not
normalize into an envelope: a truthy `success` returns the bare
`data.get("value")`, and every other outcome — falsy `success`, HTTP or
transport error, the `ValueError` of an empty domain, any other exception —
returns `None` (its two `except` clauses both return `None`). -/
def resolve_all_domains (aes : List Nat → List Nat → List Nat → List Nat)
    (agent : AgentCtx) (domain : String) (keyIssuance proxy : HttpOutcome) :
    JVal × List NetEffect :=
  if domain.isEmpty then
    (.null, [])
  else
    match encrypt_private_key aes agent.private_key keyIssuance with
    | .error _ => (.null, [.keyIssuancePost])
    | .ok env =>
      let url := agent.base_proxy_url ++ "/" ++ agent.api_version ++ "/domains/resolve-all-domains"
      let _payload : PyDict := [
        ("requestId", env.requestId),
        ("encrypted_private_key", .str env.encryptedPrivateKey),
        ("rpc_url", .str agent.rpc_url),
        ("open_api_key", .str agent.openai_api_key),
        ("domain", .str domain)]
      let effects := [NetEffect.keyIssuancePost, NetEffect.proxyPost url]
      match proxy with
      | .transportError _ => (.null, effects)
      | .response st body =>
        match raiseForStatus st url with
        | .error _ => (.null, effects)
        | .ok _ =>
          match jsonGet body "success" with
          | .error _ => (.null, effects)
          | .ok success =>
            if (success.getD .null).truthy then
              match jsonGet body "value" with
              | .ok value => (value.getD .null, effects)
              | .error _ => (.null, effects)
            else
              (.null, effects)

end AllDomainsManager

/-! ### The Jito manager (`agentipy/utils/jito/__init__.py`,
`agentipy/tools/use_jito.py`) -/

/-- The prefix each `except` clause of `__send_request` (jito/__init__.py
lines 32–43) puts before the stringified exception, selected by the first
matching clause: `HTTPError`, `ConnectionError`, `Timeout`, `InvalidHeader`,
`InvalidURL`, then any other `RequestException`. -/
def jitoErrorLabel (e : PyExc) : String :=
  match e with
  | .httpError _ => "HTTP Error: "
  | .connectionError _ => "Error Connecting: "
  | .timeoutError _ => "Timeout Error: "
  | .invalidHeader _ => "Invalid Header error: "
  | .invalidURL _ => "InvalidURL error: "
  | _ => "An error occurred: "

/-- `__send_request(agent, endpoint, method, params)` (jito/__init__.py
lines 5–43).  When `endpoint` is `None` the function returns a bare string —
not an envelope.  Otherwise it POSTs and wraps: 2xx/3xx → `{"success": True,
"data": resp.json()}`; any `RequestException` (including the `HTTPError`
raised by `raise_for_status`) → `{"success": False, "error": label + str(e)}`.
The JSON-RPC body and headers it builds do not influence the outcome and are
not carried. -/
def jitoSendRequest (agentUrl : String) (endpoint : Option String)
    (o : HttpOutcome) : JVal :=
  match endpoint with
  | none => .str "Error: Please enter a valid endpoint."
  | some ep =>
    match o with
    | .transportError e =>
      .obj [("success", .bool false), ("error", .str (jitoErrorLabel e ++ e.str))]
    | .response status body =>
      match raiseForStatus status (agentUrl ++ ep) with
      | .error e =>
        .obj [("success", .bool false), ("error", .str (jitoErrorLabel e ++ e.str))]
      | .ok _ => .obj [("success", .bool true), ("data", body)]

namespace JitoManager

/-- `JitoManager.get_tip_accounts(agent)` (use_jito.py lines 8–12).  Inside
the class body every reference to `__send_request` is name-mangled to
`_JitoManager__send_request` (Python mangles any identifier with two leading
underscores used within a class definition, bypassing the module-level
`from agentipy.utils.jito import __send_request` binding), and no name
`_JitoManager__send_request` is defined anywhere, so every call — whichever
branch of the `jito_uuid` test runs — raises `NameError` at the delegation,
before any request is made. -/
def get_tip_accounts (jito_uuid : Option String) : Except PyExc JVal :=
  match jito_uuid with
  | none => .error (.nameError "name '_JitoManager__send_request' is not defined")
  | some _ => .error (.nameError "name '_JitoManager__send_request' is not defined")

/-- `JitoManager.get_random_tip_account()` (use_jito.py lines 14–27).  The
method takes no parameters, yet its first statement is
`JitoManager.get_tip_accounts()` — a call to a plain function whose required
positional parameter `agent` is not supplied.  Python therefore raises
`TypeError` before any request is made, on every invocation; the rest of the
body (lines 17–27) is unreachable. -/
def get_random_tip_account : Except PyExc (Option JVal) :=
  .error (.typeError "get_tip_accounts() missing 1 required positional argument: 'agent'")

/-- The unreachable body of `get_random_tip_account` (use_jito.py lines
16–27), as a function of the response the `get_tip_accounts()` call would
have produced and of the `random.choice` selector: on a non-success envelope
or an empty tip-account list it returns `None`, otherwise the chosen
account. `response['success']`/`response['data']['result']` are dict
subscripts and can raise `KeyError`/`TypeError`. -/
def get_random_tip_account_body (response : JVal) (choice : List JVal → JVal) :
    Except PyExc (Option JVal) :=
  match jsonIndex response "success" with
  | .error e => .error e
  | .ok success =>
    if ¬success.truthy then
      .ok none
    else
      match jsonIndex response "data" with
      | .error e => .error e
      | .ok data =>
        match jsonIndex data "result" with
        | .error e => .error e
        | .ok result =>
          match result with
          | .arr tipAccounts =>
            if tipAccounts.isEmpty then
              .ok none
            else
              .ok (some (choice tipAccounts))
          | other =>
            if ¬other.truthy then
              .ok none
            else
              .error (.typeError "object is not a sequence")

end JitoManager

/-! ### A direct-SDK manager (`agentipy/tools/use_backpack.py`) -/

namespace BackpackManager

/-- `BackpackManager.get_account_balances` (use_backpack.py lines 21–32), as a
function of the outcome of the third-party `auth_client.get_balances()` call:
the raw SDK value is returned unchanged, and any exception is re-raised as
`Exception("Error fetching account balances: " + str(e))` — it is not
converted to an envelope. -/
def get_account_balances (sdkResult : Except PyExc JVal) : Except PyExc JVal :=
  match sdkResult with
  | .ok balances => .ok balances
  | .error e => .error (.exception ("Error fetching account balances: " ++ e.str))

end BackpackManager

/-! ### The facade (`agentipy/agent/__init__.py`) -/

namespace SolanaAgentKit

/-- The `try/except` boundary shared by all 133 facade methods
(agent/__init__.py): return the manager's value, and on any `Exception` raise
`SolanaAgentKitError(f"{label}: {e}")`. -/
def facadeGuard (label : String) (call : Except PyExc JVal) : Except PyExc JVal :=
  match call with
  | .ok v => .ok v
  | .error e => .error (.solanaAgentKitError (label ++ ": " ++ e.str))

/-- `SolanaAgentKit.request_faucet_funds` (agent/__init__.py lines 102–107),
as a function of the outcome of the deferred
`FaucetManager.request_faucet_funds(self)` call (that manager module is not
part of the sources here; its result is the parameter). -/
def request_faucet_funds (managerResult : Except PyExc JVal) : Except PyExc JVal :=
  facadeGuard "Failed to request faucet funds" managerResult

/-- `await x` where `x` is a plain dict rather than a coroutine: Python
raises `TypeError`.  This is what `return await
ThreeLandManager.create_3land_collection(...)` (agent/__init__.py line 1104)
does — the backing manager is a synchronous staticmethod returning a dict. -/
def pyAwaitDict (_ : PyDict) : Except PyExc PyDict :=
  .error (.typeError "object dict can't be used in 'await' expression")

/-- `SolanaAgentKit.create_3land_collection` (agent/__init__.py lines
1080–1108): inside the guard it `await`s the result of the synchronous
`ThreeLandManager.create_3land_collection`, which is a dict, so the `await`
raises `TypeError` on every call; the `except Exception` clause converts it,
and the method always raises `SolanaAgentKitError` wrapping that message —
the manager's envelope is never returned. -/
def create_3land_collection (aes : List Nat → List Nat → List Nat → List Nat)
    (agent : AgentCtx) (collection_symbol collection_name collection_description : String)
    (main_image_url cover_image_url : Option String) (is_devnet : Bool)
    (keyIssuance proxy : HttpOutcome) : Except PyExc PyDict :=
  match pyAwaitDict (ThreeLandManager.create_3land_collection aes agent collection_symbol
      collection_name collection_description main_image_url cover_image_url is_devnet
      keyIssuance proxy).fst with
  | .ok v => .ok v
  | .error e => .error (.solanaAgentKitError ("Failed to create 3land collection: " ++ e.str))

end SolanaAgentKit

/-! ### Wallet construction (`agentipy/agent/__init__.py` lines 80–90) -/

/-- A solders `Keypair` object, opaque except for its secret bytes. -/
structure Keypair where
  secret : List Nat

/-- A solders `Pubkey` object, opaque. -/
structure Pubkey where
  bytes : List Nat

/-- Python truthiness of a solders `Keypair`/`Pubkey` instance: the classes
define neither `__bool__` nor `__len__`, so every instance is truthy. -/
def pyTruthyObj {α : Type} (_ : α) : Bool := true

/-- The `if not self.wallet or not self.wallet_address: raise ValueError(...)`
check (agent/__init__.py lines 89–90). -/
def walletCheck (wallet : Keypair) (wallet_address : Pubkey) : Except PyExc Unit :=
  if ¬pyTruthyObj wallet ∨ ¬pyTruthyObj wallet_address then
    .error (.valueError "A valid private key must be provided or a wallet must be generated.")
  else
    .ok ()

/-- `private_key or os.getenv("SOLANA_PRIVATE_KEY", "")` (line 85): Python
`or` takes the environment default when the argument is `None` or empty. -/
def effectivePrivateKey (private_key : Option String) (envPrivateKey : String) : String :=
  match private_key with
  | some s => if s.isEmpty then envPrivateKey else s
  | none => envPrivateKey

/-- The wallet-construction section of `SolanaAgentKit.__init__`
(agent/__init__.py lines 80–90), as a function of the external solders
operations (`pubkeyOf` = `.pubkey()`, `fromBase58` =
`Keypair.from_base58_string`, which may raise, `fresh` = `Keypair()`) and
`b58enc` = `base58.b58encode(...).decode()`.  Returns
`(wallet, wallet_address, private_key)` or the raised exception. -/
def initWallet (pubkeyOf : Keypair → Pubkey) (b58enc : List Nat → String)
    (fromBase58 : String → Except PyExc Keypair) (fresh : Keypair)
    (generate_wallet : Bool) (private_key : Option String) (envPrivateKey : String) :
    Except PyExc (Keypair × Pubkey × String) :=
  if generate_wallet then
    let wallet := fresh
    let wallet_address := pubkeyOf wallet
    let sk := b58enc wallet.secret
    match walletCheck wallet wallet_address with
    | .error e => .error e
    | .ok _ => .ok (wallet, wallet_address, sk)
  else
    let pk := effectivePrivateKey private_key envPrivateKey
    match fromBase58 pk with
    | .error e => .error e
    | .ok wallet =>
      let wallet_address := pubkeyOf wallet
      match walletCheck wallet wallet_address with
      | .error e => .error e
      | .ok _ => .ok (wallet, wallet_address, pk)

/-! ### Concrete fixtures used by witnesses and counterexamples -/

/-- A stand-in for the external AES-CBC primitive in concrete executions
(its value is irrelevant to every property proved here). -/
def testAes : List Nat → List Nat → List Nat → List Nat := fun _ _ data => data

/-- A well-formed key-issuance response: a request id, a 32-byte key and a
16-byte IV, both base64-encoded. -/
def testKeyIssuance : HttpOutcome := .response 200 (.obj [
  ("requestId", .str "req-1"),
  ("encryptionKey", .str (String.mk (b64encodeBytes (List.replicate 32 0)))),
  ("iv", .str (String.mk (b64encodeBytes (List.replicate 16 0))))])

/-- A concrete agent context. -/
def testAgent : AgentCtx :=
  ⟨pyStrOf "key", "https://rpc", "oai", "https://proxy", "v1"⟩

/-! ### Helper lemmas -/

/-- Every exception the catch ladder receives becomes the failure envelope
with the stringified exception (the `ValueError` clause uses the message,
which is exactly `str` of a `ValueError`). -/
theorem catchLadder_error (e : PyExc) : catchLadder (.error e) = envelopeErr e.str := by
  cases e <;> rfl

/-- One of the two envelope shapes of the result contract. -/
def isEnvelope (d : PyDict) : Prop :=
  (∃ t m, d = envelopeOk t m) ∨ (∃ v, d = envelopeErrV v)

/-- The Jito `__send_request` envelope shapes (`data` instead of
`transaction`). -/
def isJitoEnvelope (v : JVal) : Prop :=
  (∃ data, v = .obj [("success", .bool true), ("data", data)]) ∨
  (∃ s, v = .obj [("success", .bool false), ("error", .str s)])

theorem isEnvelope_envelopeErr (msg : String) : isEnvelope (envelopeErr msg) :=
  Or.inr ⟨.str msg, rfl⟩

theorem proxyPostAndNormalize_ok (url : String) (proxy : HttpOutcome) (d : PyDict)
    (h : proxyPostAndNormalize url proxy = .ok d) : isEnvelope d := by
  unfold proxyPostAndNormalize at h
  repeat' split at h
  all_goals cases h
  · exact Or.inl ⟨_, _, rfl⟩
  · exact Or.inr ⟨_, rfl⟩

theorem catchLadder_proxyPostAndNormalize_isEnvelope (url : String) (proxy : HttpOutcome) :
    isEnvelope (catchLadder (proxyPostAndNormalize url proxy)) := by
  cases h : proxyPostAndNormalize url proxy with
  | ok d => simpa [catchLadder] using proxyPostAndNormalize_ok url proxy d h
  | error e => rw [catchLadder_error]; exact isEnvelope_envelopeErr _

theorem create_3land_collection_isEnvelope
    (aes : List Nat → List Nat → List Nat → List Nat) (agent : AgentCtx)
    (sym nm desc : String) (mi ci : Option String) (dev : Bool)
    (ki proxy : HttpOutcome) :
    isEnvelope (ThreeLandManager.create_3land_collection aes agent sym nm desc mi ci dev ki proxy).fst := by
  unfold ThreeLandManager.create_3land_collection
  split
  · exact isEnvelope_envelopeErr _
  · cases h : encrypt_private_key aes agent.private_key ki with
    | error e => simp only [h]; rw [catchLadder_error]; exact isEnvelope_envelopeErr _
    | ok env => simp only [h]; exact catchLadder_proxyPostAndNormalize_isEnvelope _ _

theorem flash_open_trade_isEnvelope
    (aes : List Nat → List Nat → List Nat → List Nat) (agent : AgentCtx)
    (token side : String) (cu lv : JVal) (ki proxy : HttpOutcome) :
    isEnvelope (FlashTradeManager.flash_open_trade aes agent token side cu lv ki proxy).fst := by
  unfold FlashTradeManager.flash_open_trade
  split
  · exact isEnvelope_envelopeErr _
  · cases h : encrypt_private_key aes agent.private_key ki with
    | error e => simp only [h]; rw [catchLadder_error]; exact isEnvelope_envelopeErr _
    | ok env => simp only [h]; exact catchLadder_proxyPostAndNormalize_isEnvelope _ _

theorem jitoSendRequest_isJitoEnvelope (agentUrl ep : String) (o : HttpOutcome) :
    isJitoEnvelope (jitoSendRequest agentUrl (some ep) o) := by
  unfold jitoSendRequest
  cases o with
  | transportError e => exact Or.inr ⟨_, rfl⟩
  | response st body =>
    cases h : raiseForStatus st (agentUrl ++ ep) with
    | error e => simp only [h]; exact Or.inr ⟨_, rfl⟩
    | ok u => simp only [h]; exact Or.inl ⟨_, rfl⟩

/-! ### Claim C1 -/

/-- C1 counterexample: two manager methods violate the claim at concrete
inputs.  `BackpackManager.get_account_balances` raises a wrapped `Exception`
on the concrete failing SDK call `Exception("boom")` instead of returning an
envelope; and `AllDomainsManager.resolve_all_domains`, though proxy-backed,
returns the bare remote `value` (the string `"sol"`, not a dict of either
envelope shape) on a concrete success response, and bare `None` on a concrete
HTTP 500. -/
theorem c1_counterexample_non_envelope_managers :
    BackpackManager.get_account_balances (.error (.exception "boom"))
      = .error (.exception "Error fetching account balances: boom") ∧
    (AllDomainsManager.resolve_all_domains testAes testAgent "x.sol" testKeyIssuance
        (.response 200 (.obj [("success", .bool true), ("value", .str "sol")]))).fst
      = .str "sol" ∧
    (AllDomainsManager.resolve_all_domains testAes testAgent "x.sol" testKeyIssuance
        (.response 500 .null)).fst = .null :=
  ⟨rfl, rfl, rfl⟩

/-- C1 (amended): the envelope invariant holds for the manager methods built
on the shared three-clause catch ladder — represented here by
`ThreeLandManager.create_3land_collection` and
`FlashTradeManager.flash_open_trade` — and for the module-level Jito
`__send_request` helper given a non-`None` endpoint (its success shape
carries the payload under `data`): whatever the outcome of their network
calls, they return exactly one of the two envelope shapes and never raise.
The claim's universal over all manager methods fails twice: direct-SDK
managers re-raise wrapped exceptions, and `AllDomainsManager` returns bare
values or `None` (see the counterexample). -/
theorem c1_proxy_managers_always_return_envelope
    (aes : List Nat → List Nat → List Nat → List Nat) (agent : AgentCtx)
    (sym nm desc : String) (mi ci : Option String) (dev : Bool)
    (token side : String) (cu lv : JVal)
    (ki proxy : HttpOutcome) (agentUrl ep : String) (o : HttpOutcome) :
    isEnvelope (ThreeLandManager.create_3land_collection aes agent sym nm desc mi ci dev ki proxy).fst ∧
    isEnvelope (FlashTradeManager.flash_open_trade aes agent token side cu lv ki proxy).fst ∧
    isJitoEnvelope (jitoSendRequest agentUrl (some ep) o) :=
  ⟨create_3land_collection_isEnvelope aes agent sym nm desc mi ci dev ki proxy,
   flash_open_trade_isEnvelope aes agent token side cu lv ki proxy,
   jitoSendRequest_isJitoEnvelope agentUrl ep o⟩

/-! ### Claim C4 -/

/-- C4: a `create_3land_collection` call with an empty (falsy) collection
symbol, name, or description returns the failure envelope with the validation
message and performs no network call — neither the key-issuance request nor
the proxy POST. -/
theorem c4_validation_failure_no_network
    (aes : List Nat → List Nat → List Nat → List Nat) (agent : AgentCtx)
    (sym nm desc : String) (mi ci : Option String) (dev : Bool)
    (ki proxy : HttpOutcome)
    (h : sym = "" ∨ nm = "" ∨ desc = "") :
    ThreeLandManager.create_3land_collection aes agent sym nm desc mi ci dev ki proxy
      = (envelopeErr "Collection symbol, name, and description are required.", []) := by
  unfold ThreeLandManager.create_3land_collection
  rw [if_pos]
  · rfl
  · rcases h with h | h | h <;> subst h <;> simp [String.isEmpty]

/-- C4 witness: the concrete call with an empty symbol. -/
theorem c4_validation_failure_no_network_witness :
    ThreeLandManager.create_3land_collection testAes testAgent "" "Name" "Desc"
        none none false testKeyIssuance (.response 200 .null)
      = (envelopeErr "Collection symbol, name, and description are required.", []) :=
  c4_validation_failure_no_network testAes testAgent "" "Name" "Desc" none none false
    testKeyIssuance (.response 200 .null) (Or.inl rfl)

/-! ### Claim C8 -/

/-- C8 (code bug): `JitoManager.get_random_tip_account` can never observe an
empty tip-account list — the method takes no parameters and calls
`JitoManager.get_tip_accounts()` without the required `agent` argument, so
every invocation raises `TypeError` first.  Its unreachable body would indeed
have returned `None` on an empty list without raising, for any `random.choice`
function. -/
theorem c8_get_random_tip_account_always_raises_typeerror :
    JitoManager.get_random_tip_account
      = .error (.typeError "get_tip_accounts() missing 1 required positional argument: 'agent'") ∧
    (∀ choice : List JVal → JVal,
      JitoManager.get_random_tip_account_body
          (.obj [("success", .bool true), ("data", .obj [("result", .arr [])])]) choice
        = .ok none) :=
  ⟨rfl, fun _ => rfl⟩

/-! ### Claim C10 -/

/-- C10: the `ValueError` check at the end of the wallet-construction section
of `SolanaAgentKit.__init__` is unreachable: the check itself always passes
(a constructed `Keypair`/`Pubkey` object is always truthy), so construction
either completes with the constructed keypair and its public key, or fails
earlier with whatever `Keypair.from_base58_string` raised. -/
theorem c10_wallet_valueerror_unreachable
    (pubkeyOf : Keypair → Pubkey) (b58enc : List Nat → String)
    (fromBase58 : String → Except PyExc Keypair) (fresh : Keypair)
    (gen : Bool) (pk : Option String) (envPk : String) :
    (∀ w a, walletCheck w a = .ok ()) ∧
    ((∃ w sk, initWallet pubkeyOf b58enc fromBase58 fresh gen pk envPk
        = .ok (w, pubkeyOf w, sk)) ∨
     (∃ e, fromBase58 (effectivePrivateKey pk envPk) = .error e ∧
        initWallet pubkeyOf b58enc fromBase58 fresh gen pk envPk = .error e)) := by
  refine ⟨fun w a => rfl, ?_⟩
  cases gen with
  | true => exact Or.inl ⟨fresh, b58enc fresh.secret, rfl⟩
  | false =>
    cases h : fromBase58 (effectivePrivateKey pk envPk) with
    | error e =>
      exact Or.inr ⟨e, rfl, by simp [initWallet, h]⟩
    | ok w =>
      exact Or.inl ⟨w, effectivePrivateKey pk envPk, by simp [initWallet, h, walletCheck, pyTruthyObj]⟩

/-! ### More helper lemmas: running the managers past validation and
handshake -/

theorem raiseForStatus_ok_of_lt (st : Nat) (url : String) (h : st < 400) :
    raiseForStatus st url = .ok () := by
  unfold raiseForStatus
  rw [if_neg (by omega), if_neg (by omega)]

theorem raiseForStatus_error_of_4xx5xx (st : Nat) (url : String)
    (h4 : 400 ≤ st) (h6 : st < 600) :
    ∃ exc, raiseForStatus st url = .error exc ∧ exc.isRequestException = true := by
  unfold raiseForStatus
  by_cases h : 400 ≤ st ∧ st < 500
  · rw [if_pos h]
    exact ⟨_, rfl, rfl⟩
  · rw [if_neg h, if_pos (by omega)]
    exact ⟨_, rfl, rfl⟩

/-- The URL of the 3land collection-creation proxy POST. -/
def threeLandUrl (agent : AgentCtx) : String :=
  agent.base_proxy_url ++ "/" ++ agent.api_version ++ "/nft/3land-create-collection"

/-- The URL of the flash-open-trade proxy POST. -/
def flashUrl (agent : AgentCtx) : String :=
  agent.base_proxy_url ++ "/" ++ agent.api_version ++ "/flash/flash-open-trade"

theorem create_3land_collection_run
    (aes : List Nat → List Nat → List Nat → List Nat) (agent : AgentCtx)
    (sym nm desc : String) (mi ci : Option String) (dev : Bool)
    (ki proxy : HttpOutcome) (env : EncryptedKeyEnv)
    (hs : sym.isEmpty = false) (hn : nm.isEmpty = false) (hd : desc.isEmpty = false)
    (he : encrypt_private_key aes agent.private_key ki = .ok env) :
    ThreeLandManager.create_3land_collection aes agent sym nm desc mi ci dev ki proxy
      = (catchLadder (proxyPostAndNormalize (threeLandUrl agent) proxy),
         [.keyIssuancePost, .proxyPost (threeLandUrl agent)]) := by
  unfold ThreeLandManager.create_3land_collection
  rw [if_neg (by simp [hs, hn, hd]), he]
  rfl

theorem flash_open_trade_run
    (aes : List Nat → List Nat → List Nat → List Nat) (agent : AgentCtx)
    (token side : String) (cu lv : JVal) (ki proxy : HttpOutcome) (env : EncryptedKeyEnv)
    (ht : token.isEmpty = false) (hsd : side.isEmpty = false)
    (hcu : cu.truthy = true) (hlv : lv.truthy = true)
    (he : encrypt_private_key aes agent.private_key ki = .ok env) :
    FlashTradeManager.flash_open_trade aes agent token side cu lv ki proxy
      = (catchLadder (proxyPostAndNormalize (flashUrl agent) proxy),
         [.keyIssuancePost, .proxyPost (flashUrl agent)]) := by
  unfold FlashTradeManager.flash_open_trade
  rw [if_neg (by simp [ht, hsd, hcu, hlv]), he]
  rfl

theorem proxyPostAndNormalize_success (url : String) (st : Nat) (fs : PyDict) (sv : JVal)
    (hst : st < 400) (hsucc : dictGet fs "success" = some sv) (hsv : sv.truthy = true) :
    proxyPostAndNormalize url (.response st (.obj fs))
      = .ok (envelopeOk ((dictGet fs "value").getD .null) ((dictGet fs "message").getD .null)) := by
  simp only [proxyPostAndNormalize, jsonGet]
  rw [raiseForStatus_ok_of_lt st url hst]
  simp [hsucc, hsv]

theorem proxyPostAndNormalize_failure (url : String) (st : Nat) (fs : PyDict)
    (hst : st < 400)
    (hsucc : dictGet fs "success" = some (.bool false) ∨ dictGet fs "success" = none) :
    proxyPostAndNormalize url (.response st (.obj fs))
      = .ok (envelopeErrV ((dictGet fs "error").getD (.str "Unknown error"))) := by
  simp only [proxyPostAndNormalize, jsonGet]
  rw [raiseForStatus_ok_of_lt st url hst]
  rcases hsucc with h | h <;> simp [h, JVal.truthy]

theorem proxyPostAndNormalize_raise (url : String) (st : Nat) (body : JVal) (exc : PyExc)
    (h : raiseForStatus st url = .error exc) :
    proxyPostAndNormalize url (.response st body) = .error exc := by
  simp only [proxyPostAndNormalize]
  rw [h]

/-! ### Claim C2 -/

/-- C2: for a 2xx proxy response whose `success` field is truthy, both
proxy-backed managers return the success envelope carrying the response's
`value` field as `transaction` and its `message` field verbatim. -/
theorem c2_success_envelope_preserves_value_and_message
    (aes : List Nat → List Nat → List Nat → List Nat) (agent : AgentCtx)
    (sym nm desc : String) (mi ci : Option String) (dev : Bool)
    (token side : String) (cu lv : JVal)
    (ki : HttpOutcome) (env : EncryptedKeyEnv) (st : Nat) (fs : PyDict) (sv v m : JVal)
    (hs : sym.isEmpty = false) (hn : nm.isEmpty = false) (hd : desc.isEmpty = false)
    (ht : token.isEmpty = false) (hsd : side.isEmpty = false)
    (hcu : cu.truthy = true) (hlv : lv.truthy = true)
    (he : encrypt_private_key aes agent.private_key ki = .ok env)
    (hst : 200 ≤ st ∧ st < 300)
    (hsucc : dictGet fs "success" = some sv) (hsv : sv.truthy = true)
    (hv : dictGet fs "value" = some v) (hm : dictGet fs "message" = some m) :
    (ThreeLandManager.create_3land_collection aes agent sym nm desc mi ci dev ki
        (.response st (.obj fs))).fst = envelopeOk v m ∧
    (FlashTradeManager.flash_open_trade aes agent token side cu lv ki
        (.response st (.obj fs))).fst = envelopeOk v m := by
  constructor
  · rw [create_3land_collection_run aes agent sym nm desc mi ci dev ki _ env hs hn hd he]
    rw [proxyPostAndNormalize_success _ st fs sv (by omega) hsucc hsv]
    simp [catchLadder, hv, hm]
  · rw [flash_open_trade_run aes agent token side cu lv ki _ env ht hsd hcu hlv he]
    rw [proxyPostAndNormalize_success _ st fs sv (by omega) hsucc hsv]
    simp [catchLadder, hv, hm]

/-- C2 witness: a concrete 200 response with `success: true`, `value: "tx"`,
`message: "ok"`. -/
theorem c2_success_envelope_preserves_value_and_message_witness :
    (ThreeLandManager.create_3land_collection testAes testAgent "SYM" "Name" "Desc"
        none none false testKeyIssuance
        (.response 200 (.obj [("success", .bool true), ("value", .str "tx"),
          ("message", .str "ok")]))).fst = envelopeOk (.str "tx") (.str "ok") ∧
    (FlashTradeManager.flash_open_trade testAes testAgent "SOL" "buy" (.num 100) (.num 2)
        testKeyIssuance
        (.response 200 (.obj [("success", .bool true), ("value", .str "tx"),
          ("message", .str "ok")]))).fst = envelopeOk (.str "tx") (.str "ok") :=
  c2_success_envelope_preserves_value_and_message testAes testAgent "SYM" "Name" "Desc"
    none none false "SOL" "buy" (.num 100) (.num 2) testKeyIssuance
    ⟨.str "req-1", "a2V5DQ0NDQ0NDQ0NDQ0NDQ=="⟩ 200
    [("success", .bool true), ("value", .str "tx"), ("message", .str "ok")]
    (.bool true) (.str "tx") (.str "ok")
    rfl rfl rfl rfl rfl rfl rfl rfl (by omega) rfl rfl rfl rfl

/-! ### Claim C3 -/

/-- C3: for a 2xx proxy response whose `success` field is `false` or absent,
both proxy-backed managers return the failure envelope whose `error` value is
the response's `error` field when present and the literal string
`"Unknown error"` when absent. -/
theorem c3_failure_envelope_error_field
    (aes : List Nat → List Nat → List Nat → List Nat) (agent : AgentCtx)
    (sym nm desc : String) (mi ci : Option String) (dev : Bool)
    (token side : String) (cu lv : JVal)
    (ki : HttpOutcome) (env : EncryptedKeyEnv) (st : Nat) (fs : PyDict)
    (hs : sym.isEmpty = false) (hn : nm.isEmpty = false) (hd : desc.isEmpty = false)
    (ht : token.isEmpty = false) (hsd : side.isEmpty = false)
    (hcu : cu.truthy = true) (hlv : lv.truthy = true)
    (he : encrypt_private_key aes agent.private_key ki = .ok env)
    (hst : 200 ≤ st ∧ st < 300)
    (hsucc : dictGet fs "success" = some (.bool false) ∨ dictGet fs "success" = none) :
    (ThreeLandManager.create_3land_collection aes agent sym nm desc mi ci dev ki
        (.response st (.obj fs))).fst
      = envelopeErrV ((dictGet fs "error").getD (.str "Unknown error")) ∧
    (FlashTradeManager.flash_open_trade aes agent token side cu lv ki
        (.response st (.obj fs))).fst
      = envelopeErrV ((dictGet fs "error").getD (.str "Unknown error")) := by
  constructor
  · rw [create_3land_collection_run aes agent sym nm desc mi ci dev ki _ env hs hn hd he]
    rw [proxyPostAndNormalize_failure _ st fs (by omega) hsucc]
    rfl
  · rw [flash_open_trade_run aes agent token side cu lv ki _ env ht hsd hcu hlv he]
    rw [proxyPostAndNormalize_failure _ st fs (by omega) hsucc]
    rfl

/-- C3 witness: a concrete 200 response with `success: false` and no `error`
field, yielding the literal `"Unknown error"`. -/
theorem c3_failure_envelope_error_field_witness :
    (ThreeLandManager.create_3land_collection testAes testAgent "SYM" "Name" "Desc"
        none none false testKeyIssuance
        (.response 200 (.obj [("success", .bool false)]))).fst
      = envelopeErr "Unknown error" ∧
    (FlashTradeManager.flash_open_trade testAes testAgent "SOL" "buy" (.num 100) (.num 2)
        testKeyIssuance
        (.response 200 (.obj [("success", .bool false)]))).fst
      = envelopeErr "Unknown error" :=
  c3_failure_envelope_error_field testAes testAgent "SYM" "Name" "Desc" none none false
    "SOL" "buy" (.num 100) (.num 2) testKeyIssuance
    ⟨.str "req-1", "a2V5DQ0NDQ0NDQ0NDQ0NDQ=="⟩ 200 [("success", .bool false)]
    rfl rfl rfl rfl rfl rfl rfl rfl (by omega) (Or.inl rfl)

/-! ### Claim C5 -/

/-- C5 counterexample: a non-2xx status outside `[400, 600)` does not produce
the failure envelope.  At the concrete 304 response with a `success: true`
body, `create_3land_collection` returns the success envelope — `requests`'
`raise_for_status` raises only for statuses in `[400, 600)`, so nothing is
raised and the body is normalized as usual. -/
theorem c5_counterexample_304_gives_success_envelope :
    (ThreeLandManager.create_3land_collection testAes testAgent "SYM" "Name" "Desc"
        none none false testKeyIssuance
        (.response 304 (.obj [("success", .bool true), ("value", .str "tx"),
          ("message", .str "ok")]))).fst = envelopeOk (.str "tx") (.str "ok") ∧
    dictGet (ThreeLandManager.create_3land_collection testAes testAgent "SYM" "Name" "Desc"
        none none false testKeyIssuance
        (.response 304 (.obj [("success", .bool true), ("value", .str "tx"),
          ("message", .str "ok")]))).fst "success" = some (.bool true) :=
  ⟨rfl, rfl⟩

/-- C5 (amended): for every proxy response with an HTTP error status in
`[400, 600)` — the exact range for which `raise_for_status` raises — and for
every transport-level exception of the HTTP library, the manager returns
`{"success": False, "error": str(exc)}` with the stringified raised
exception, and no such exception escapes. -/
theorem c5_http_error_and_transport_error_become_failure_envelope
    (aes : List Nat → List Nat → List Nat → List Nat) (agent : AgentCtx)
    (sym nm desc : String) (mi ci : Option String) (dev : Bool)
    (ki : HttpOutcome) (env : EncryptedKeyEnv) (st : Nat) (body : JVal) (e : PyExc)
    (hs : sym.isEmpty = false) (hn : nm.isEmpty = false) (hd : desc.isEmpty = false)
    (he : encrypt_private_key aes agent.private_key ki = .ok env) :
    (400 ≤ st → st < 600 →
      ∃ exc, raiseForStatus st (threeLandUrl agent) = .error exc ∧
        exc.isRequestException = true ∧
        (ThreeLandManager.create_3land_collection aes agent sym nm desc mi ci dev ki
            (.response st body)).fst = envelopeErr exc.str) ∧
    (e.isRequestException = true →
      (ThreeLandManager.create_3land_collection aes agent sym nm desc mi ci dev ki
          (.transportError e)).fst = envelopeErr e.str) := by
  constructor
  · intro h4 h6
    obtain ⟨exc, hexc, hreq⟩ := raiseForStatus_error_of_4xx5xx st (threeLandUrl agent) h4 h6
    refine ⟨exc, hexc, hreq, ?_⟩
    rw [create_3land_collection_run aes agent sym nm desc mi ci dev ki _ env hs hn hd he]
    rw [proxyPostAndNormalize_raise (threeLandUrl agent) st body exc hexc]
    exact catchLadder_error exc
  · intro _
    rw [create_3land_collection_run aes agent sym nm desc mi ci dev ki _ env hs hn hd he]
    exact catchLadder_error e

/-- C5 witness: the concrete HTTP 500 case. -/
theorem c5_http_error_and_transport_error_become_failure_envelope_witness :
    ∃ exc, raiseForStatus 500 (threeLandUrl testAgent) = .error exc ∧
      exc.isRequestException = true ∧
      (ThreeLandManager.create_3land_collection testAes testAgent "SYM" "Name" "Desc"
          none none false testKeyIssuance (.response 500 .null)).fst = envelopeErr exc.str :=
  (c5_http_error_and_transport_error_become_failure_envelope testAes testAgent
    "SYM" "Name" "Desc" none none false testKeyIssuance
    ⟨.str "req-1", "a2V5DQ0NDQ0NDQ0NDQ0NDQ=="⟩ 500 .null
    (.connectionError "down") rfl rfl rfl rfl).1 (by omega) (by omega)

/-! ### Claim C9 -/

/-- C9: whatever exception the backing manager raises, the facade method
raises exactly `SolanaAgentKitError` with the method's label prefixed to the
stringified original exception; every facade outcome is either the manager's
value or such a `SolanaAgentKitError` — no other exception type escapes
(shown for the embedded representatives: `request_faucet_funds` over an
arbitrary manager outcome, the shared guard over an arbitrary label, and the
delegating `create_3land_collection`, which `await`s its synchronous
manager's dict and therefore raises — and wraps — the `await` `TypeError` on
every call, never returning the manager's envelope). -/
theorem c9_facade_wraps_manager_exceptions
    (e : PyExc) (r : Except PyExc JVal) (label : String)
    (aes : List Nat → List Nat → List Nat → List Nat) (agent : AgentCtx)
    (sym nm desc : String) (mi ci : Option String) (dev : Bool)
    (ki proxy : HttpOutcome) :
    SolanaAgentKit.request_faucet_funds (.error e)
      = .error (.solanaAgentKitError ("Failed to request faucet funds: " ++ e.str)) ∧
    ((∃ v, SolanaAgentKit.facadeGuard label r = .ok v) ∨
     (∃ msg, SolanaAgentKit.facadeGuard label r = .error (.solanaAgentKitError msg))) ∧
    SolanaAgentKit.create_3land_collection aes agent sym nm desc mi ci dev ki proxy
      = .error (.solanaAgentKitError
          ("Failed to create 3land collection: object dict can't be used in 'await' expression")) := by
  refine ⟨rfl, ?_, rfl⟩
  cases r with
  | ok v => exact Or.inl ⟨v, rfl⟩
  | error ex => exact Or.inr ⟨label ++ ": " ++ ex.str, rfl⟩

/-! ### Claim C7 -/

/-- C7 counterexample: at the concrete malformed key-issuance response `{}`
(missing `requestId`), the handshake raises `KeyError`, which is not the
spec's `KeyIssuanceError` — indeed no `KeyIssuanceError` class exists in the
code. -/
theorem c7_counterexample_malformed_response_raises_keyerror :
    get_encryption_key (.response 200 (.obj [])) = .error (.keyError "requestId") ∧
    (PyExc.keyError "requestId").isKeyIssuanceError = false :=
  ⟨rfl, rfl⟩

/-- C7 (amended): the handshake does fail when the endpoint is unreachable or
the response is malformed, but by propagating the transport exception or by
raising `KeyError` for the first of `requestId`/`encryptionKey`/`iv` that is
missing — not by raising a `KeyIssuanceError` (no such exception type exists
in the code). -/
theorem c7_handshake_failure_modes
    (e : PyExc) (st : Nat) (fs : PyDict) :
    (get_encryption_key (.transportError e) = .error e) ∧
    (dictGet fs "requestId" = none →
      get_encryption_key (.response st (.obj fs)) = .error (.keyError "requestId") ∧
      (PyExc.keyError "requestId").isKeyIssuanceError = false) ∧
    (∀ rid, dictGet fs "requestId" = some rid → dictGet fs "encryptionKey" = none →
      get_encryption_key (.response st (.obj fs)) = .error (.keyError "encryptionKey")) ∧
    (∀ rid ek bs, dictGet fs "requestId" = some rid →
      dictGet fs "encryptionKey" = some ek → b64decodeJ ek = .ok bs →
      dictGet fs "iv" = none →
      get_encryption_key (.response st (.obj fs)) = .error (.keyError "iv")) := by
  refine ⟨rfl, ?_, ?_, ?_⟩
  · intro h
    exact ⟨by simp [get_encryption_key, requestsPost, jsonIndex, h], rfl⟩
  · intro rid h1 h2
    simp [get_encryption_key, requestsPost, jsonIndex, h1, h2]
  · intro rid ek bs h1 h2 h3 h4
    simp [get_encryption_key, requestsPost, jsonIndex, h1, h2, h3, h4]

/-- C7 witness: the malformed-response conjunct at the concrete empty body,
and the transport conjunct at a concrete connection failure. -/
theorem c7_handshake_failure_modes_witness :
    (get_encryption_key (.transportError (.connectionError "down"))
      = .error (.connectionError "down")) ∧
    (get_encryption_key (.response 200 (.obj [])) = .error (.keyError "requestId") ∧
      (PyExc.keyError "requestId").isKeyIssuanceError = false) :=
  ⟨(c7_handshake_failure_modes (.connectionError "down") 200 []).1,
   (c7_handshake_failure_modes (.connectionError "down") 200 []).2.1 rfl⟩

/-! ### Claim C6 -/

theorem utf8EncodeCp_ascii (n : Nat) (h : n < 128) : utf8EncodeCp n = [n] := by
  unfold utf8EncodeCp
  rw [if_pos h]

theorem utf8Encode_cons (c : Nat) (s : PyStr) :
    utf8Encode (c :: s) = utf8EncodeCp c ++ utf8Encode s := rfl

theorem utf8Encode_ascii (s : PyStr) (h : ∀ c ∈ s, c < 128) : utf8Encode s = s := by
  induction s with
  | nil => rfl
  | cons c cs ih =>
    rw [utf8Encode_cons, utf8EncodeCp_ascii c (h c (by simp)),
      ih (fun x hx => h x (by simp [hx])), List.singleton_append]

theorem utf8Encode_append (s t : PyStr) :
    utf8Encode (s ++ t) = utf8Encode s ++ utf8Encode t := by
  simp [utf8Encode]

/-- C6 counterexample: for the one-character key `"é"` (code point 233,
two UTF-8 bytes), the padding step appends 15 characters and reaches a
16-character boundary, but the UTF-8-encoded padded plaintext is 17 bytes —
not a multiple of 16 — and the CBC encryptor therefore raises `ValueError`
even with a well-formed handshake. -/
theorem c6_counterexample_nonascii_key :
    paddingLength [233] = 15 ∧
    (padPrivateKey [233]).length = 16 ∧
    (utf8Encode (padPrivateKey [233])).length = 17 ∧
    (utf8Encode (padPrivateKey [233])).length % 16 ≠ 0 ∧
    encrypt_private_key testAes [233] testKeyIssuance
      = .error (.valueError "The length of the provided data is not a multiple of the block length.") :=
  ⟨rfl, rfl, rfl, by decide, rfl⟩

/-- C6 (amended): for every ASCII private-key string (every base58 key is
ASCII), the padding step appends `k = 16 - (len mod 16)` padding characters
with `k` in `[1, 16]`; the padded plaintext encodes to a positive multiple of
16 bytes; each padding byte equals `k`; and removing the last `k` characters
recovers the original string.  For non-ASCII strings the byte-multiple
property fails (see the counterexample), because the source pads by character
count while the cipher consumes UTF-8 bytes. -/
theorem c6_padding_roundtrip (s : PyStr) (h : ∀ c ∈ s, c < 128) :
    1 ≤ paddingLength s ∧ paddingLength s ≤ 16 ∧
    utf8Encode (padPrivateKey s) = s ++ List.replicate (paddingLength s) (paddingLength s) ∧
    0 < (utf8Encode (padPrivateKey s)).length ∧
    (utf8Encode (padPrivateKey s)).length % 16 = 0 ∧
    (utf8Encode (padPrivateKey s)).drop s.length
      = List.replicate (paddingLength s) (paddingLength s) ∧
    (padPrivateKey s).take s.length = s := by
  have hk1 : 1 ≤ paddingLength s := by unfold paddingLength; omega
  have hk16 : paddingLength s ≤ 16 := by unfold paddingLength; omega
  have hpadchars : ∀ c ∈ List.replicate (paddingLength s) (paddingLength s), c < 128 := by
    intro c hc
    rw [List.eq_of_mem_replicate hc]
    omega
  have henc : utf8Encode (padPrivateKey s)
      = s ++ List.replicate (paddingLength s) (paddingLength s) := by
    unfold padPrivateKey
    rw [utf8Encode_append, utf8Encode_ascii s h,
      utf8Encode_ascii (List.replicate (paddingLength s) (paddingLength s)) hpadchars]
  have hlen : (utf8Encode (padPrivateKey s)).length = s.length + paddingLength s := by
    rw [henc]
    simp
  refine ⟨hk1, hk16, henc, by omega, ?_, ?_, ?_⟩
  · rw [hlen]
    unfold paddingLength
    omega
  · rw [henc]
    simp
  · unfold padPrivateKey
    simp

/-- C6 witness: the concrete ASCII key `"key"` (three characters, padding
length 13). -/
theorem c6_padding_roundtrip_witness :
    1 ≤ paddingLength (pyStrOf "key") ∧ paddingLength (pyStrOf "key") ≤ 16 ∧
    utf8Encode (padPrivateKey (pyStrOf "key"))
      = pyStrOf "key" ++ List.replicate (paddingLength (pyStrOf "key")) (paddingLength (pyStrOf "key")) ∧
    0 < (utf8Encode (padPrivateKey (pyStrOf "key"))).length ∧
    (utf8Encode (padPrivateKey (pyStrOf "key"))).length % 16 = 0 ∧
    (utf8Encode (padPrivateKey (pyStrOf "key"))).drop (pyStrOf "key").length
      = List.replicate (paddingLength (pyStrOf "key")) (paddingLength (pyStrOf "key")) ∧
    (padPrivateKey (pyStrOf "key")).take (pyStrOf "key").length = pyStrOf "key" :=
  c6_padding_roundtrip (pyStrOf "key") (by decide)
